import Mathlib

/-!
# Verification of the dtu-notes template subsystem

A shallow embedding, in Lean 4, of the course-pattern matcher, course-type
resolution, variant selection, filename sanitization, Typst header
generation and manifest validation of the dtu-notes CLI, together with
proofs of the behavioural properties stated in its design specification.

Rust strings are modelled as Lean `String` (a list of unicode scalar
values); `str::len` (a byte count) is modelled by `String.utf8ByteSize`.
`HashMap` values that the code only iterates or queries by key are
modelled as association lists.  Fallible `Result`-returning functions that
can in fact never fail (the validators only ever return `Ok`) are modelled
as total functions.
-/

namespace DtuNotes

/-! ## Generic string helpers (models of Rust `str` methods) -/

/-- Models Rust `s.trim().is_empty()`: the string has no non-whitespace
character.  (Rust trims unicode whitespace; the characters that occur in
this development are ASCII, for which `Char.isWhitespace` agrees.) -/
def trim_is_empty (s : String) : Bool :=
  s.data.all (fun c => c.isWhitespace)

/-- Models Rust `s.ends_with(suffix)`. -/
def string_ends_with (s suffix : String) : Bool :=
  suffix.data.isSuffixOf s.data

/-- Does `needle` occur contiguously inside the second list? -/
def list_contains_seq (needle : List Char) : List Char → Bool
  | [] => needle.isEmpty
  | c :: rest => needle.isPrefixOf (c :: rest) || list_contains_seq needle rest

/-- Models Rust `s.contains(sub)`. -/
def string_contains (s sub : String) : Bool :=
  list_contains_seq sub.data s.data

/-- Split a character list at the first occurrence of `sep`: returns the
prefix before it and, when `sep` occurs, the remainder after it. -/
def split_at_first (sep : Char) : List Char → List Char × Option (List Char)
  | [] => ([], none)
  | c :: rest =>
    if c = sep then ([], some rest)
    else
      let r := split_at_first sep rest
      (c :: r.1, r.2)

/-! ## Model of `semver::Version::parse` (external crate)

`validate_metadata` and `validate_engine_config` only observe whether
parsing succeeds, so we model `semver::Version::parse(s).is_ok()` as a
boolean recogniser of the semver 2.0 grammar:
`MAJOR.MINOR.PATCH` numeric identifiers without leading zeroes, an
optional `-prerelease` (dot-separated alphanumeric/hyphen identifiers,
numeric ones without leading zeroes) and an optional `+build`
(dot-separated alphanumeric/hyphen identifiers). -/

/-- A semver numeric identifier: nonempty digits without leading zeroes. -/
def is_numeric_ident (w : List Char) : Bool :=
  !w.isEmpty && w.all (fun c => c.isDigit) && (w.length == 1 || w.head? != some '0')

/-- Characters allowed in semver prerelease/build identifiers. -/
def is_ident_char (c : Char) : Bool :=
  c.isAlphanum || c = '-'

/-- A semver prerelease identifier. -/
def is_prerelease_ident (w : List Char) : Bool :=
  !w.isEmpty && w.all is_ident_char &&
    (if w.all (fun c => c.isDigit) then (w.length == 1 || w.head? != some '0') else true)

/-- A semver build identifier. -/
def is_build_ident (w : List Char) : Bool :=
  !w.isEmpty && w.all is_ident_char

/-- Models `semver::Version::parse(s).is_ok()`. -/
def semver_is_valid (s : String) : Bool :=
  match split_at_first '+' s.data with
  | (vc, buildOpt) =>
    match split_at_first '-' vc with
    | (core, preOpt) =>
      ((core.splitOn '.').length == 3 && (core.splitOn '.').all is_numeric_ident) &&
      (match preOpt with
       | none => true
       | some p => (p.splitOn '.').all is_prerelease_ident) &&
      (match buildOpt with
       | none => true
       | some b => (b.splitOn '.').all is_build_ident)

/-! ## Filename sanitization

Two textually independent implementations exist in the source:
`Validator::sanitize_filename` in `src/core/validation.rs` and the free
function `sanitize_filename` in `src/utils.rs`.  Each is embedded
separately below.  Both share the Rust pipeline
`chars().map(..).collect::<String>().split('-').filter(|s| !s.is_empty())
.collect::<Vec<_>>().join("-").to_lowercase().trim_end_matches('-')`,
which is rendered as `splitOn`/`filter`/`intercalate`/`map
Char.toLower`/`trim_end_dashes`.  (The intermediate string is ASCII-only,
where Rust `to_lowercase` agrees with `Char.toLower`.) -/

/-- Models Rust `s.trim_end_matches('-')`: drop every trailing dash. -/
def trim_end_dashes (l : List Char) : List Char :=
  (l.reverse.dropWhile (fun c => c == '-')).reverse

/-- Analysis predicate: the characters the sanitizer's character map can
output (ASCII letters, digits, dash, underscore; code points spelled as
naturals). -/
def sanitizer_alphabet (c : Char) : Prop :=
  (97 ≤ c.toNat ∧ c.toNat ≤ 122) ∨ (65 ≤ c.toNat ∧ c.toNat ≤ 90) ∨
    (48 ≤ c.toNat ∧ c.toNat ≤ 57) ∨ c = '-' ∨ c = '_'

/-- Analysis predicate: the characters that can survive in a sanitized
filename (lower-case letters, digits, dash, underscore). -/
def sanitized_alphabet (c : Char) : Prop :=
  (97 ≤ c.toNat ∧ c.toNat ≤ 122) ∨ (48 ≤ c.toNat ∧ c.toNat ≤ 57) ∨ c = '-' ∨ c = '_'

instance (c : Char) : Decidable (sanitizer_alphabet c) := by
  unfold sanitizer_alphabet
  infer_instance

instance (c : Char) : Decidable (sanitized_alphabet c) := by
  unfold sanitized_alphabet
  infer_instance

namespace Validator

/-- The character map of `Validator::sanitize_filename`
(`src/core/validation.rs:26-35`), arm for arm.  Rust range patterns
`'a'..='z'` are unicode scalar ranges, i.e. `Char` order intervals. -/
def map_filename_char (c : Char) : Char :=
  if ('a' ≤ c ∧ c ≤ 'z') ∨ ('A' ≤ c ∧ c ≤ 'Z') ∨ ('0' ≤ c ∧ c ≤ '9') ∨ c = '-' ∨ c = '_' then c
  else if c = 'æ' ∨ c = 'Æ' then 'a'
  else if c = 'ø' ∨ c = 'Ø' then 'o'
  else if c = 'å' ∨ c = 'Å' then 'a'
  else if c = 'ä' ∨ c = 'Ä' then 'a'
  else if c = 'ö' ∨ c = 'Ö' then 'o'
  else if c = ' ' ∨ c = '.' ∨ c = ',' ∨ c = ';' ∨ c = ':' ∨ c = '/' ∨ c = '\\' then '-'
  else '-'

/-- `Validator::sanitize_filename` (`src/core/validation.rs:23-44`). -/
def sanitize_filename (input : String) : String :=
  String.mk (trim_end_dashes (List.map Char.toLower
    (List.intercalate ['-']
      (((input.data.map map_filename_char).splitOn '-').filter (fun w => !w.isEmpty)))))

end Validator

namespace utils

/-- The character map of `utils::sanitize_filename` (`src/utils.rs:35-56`),
arm for arm (the separator characters have one arm each there). -/
def map_filename_char (c : Char) : Char :=
  if ('a' ≤ c ∧ c ≤ 'z') ∨ ('A' ≤ c ∧ c ≤ 'Z') ∨ ('0' ≤ c ∧ c ≤ '9') ∨ c = '-' ∨ c = '_' then c
  else if c = 'æ' ∨ c = 'Æ' then 'a'
  else if c = 'ø' ∨ c = 'Ø' then 'o'
  else if c = 'å' ∨ c = 'Å' then 'a'
  else if c = 'ä' ∨ c = 'Ä' then 'a'
  else if c = 'ö' ∨ c = 'Ö' then 'o'
  else if c = ' ' then '-'
  else if c = '.' then '-'
  else if c = ',' then '-'
  else if c = ';' then '-'
  else if c = ':' then '-'
  else if c = '/' ∨ c = '\\' then '-'
  else '-'

/-- Free function `sanitize_filename` (`src/utils.rs:32-67`). -/
def sanitize_filename (input : String) : String :=
  String.mk (trim_end_dashes (List.map Char.toLower
    (List.intercalate ['-']
      (((input.data.map map_filename_char).splitOn '-').filter (fun w => !w.isEmpty)))))

end utils

/-! ## Template package configuration (`src/core/template/config.rs`) -/

/-- `TemplateMetadata` (`config.rs:18-26`). -/
structure TemplateMetadata where
  name : String
  version : String
  description : Option String
  repository : Option String
  author : Option String
  license : Option String
deriving DecidableEq, Repr

/-- `TemplateDefinition` (`config.rs:28-38`). -/
structure TemplateDefinition where
  name : String
  display_name : String
  description : String
  file : String
  function : String
  supports_variants : Bool
  course_types : Option (List String)
  default_sections : List String
deriving DecidableEq, Repr

/-- `TemplateVariant` (`config.rs:40-50`). -/
structure TemplateVariant where
  template : String
  name : String
  display_name : String
  course_types : List String
  file : String
  function : Option String
  additional_sections : Option (List String)
  override_sections : Option (List String)
deriving DecidableEq, Repr

/-- `CompatibilityConfig` (`config.rs:74-80`). -/
structure CompatibilityConfig where
  minimum_noter_version : String
  required_typst_version : Option String
  supported_platforms : List String
  dependencies : List String
deriving DecidableEq, Repr

/-- `RenderingConfig` (`config.rs:110-118`). -/
structure RenderingConfig where
  timeout_seconds : Nat
  max_memory_mb : Option Nat
  enable_caching : Bool
  cache_duration_minutes : Nat
  parallel_processing : Bool
  max_concurrent : Nat
deriving DecidableEq, Repr

/-- `EngineConfig` (`config.rs:52-60`).  Only the `compatibility` and
`rendering` sub-configurations are read by any operation modelled here
(`validate_engine_config`); the `features`, `processing`, `variables` and
`validation` sub-configurations are never consulted and are omitted. -/
structure EngineConfig where
  compatibility : CompatibilityConfig
  rendering : RenderingConfig
deriving DecidableEq, Repr

/-- `TemplateConfig` (`config.rs:9-16`), one parsed package manifest.
`course_mapping: Option<HashMap<String,String>>` is modelled as an
association list (the code only queries it by key and iterates it). -/
structure TemplateConfig where
  metadata : TemplateMetadata
  templates : List TemplateDefinition
  variants : Option (List TemplateVariant)
  course_mapping : Option (List (String × String))
  engine : Option EngineConfig
deriving DecidableEq, Repr

/-- Key lookup in an association list; models `HashMap::get`. -/
def assoc_lookup (m : List (String × String)) (key : String) : Option String :=
  (m.find? (fun p => p.1 == key)).map (fun p => p.2)

/-! ## Template discovery (`src/core/template/discovery.rs`) -/

namespace TemplateDiscovery

/-- `TemplateDiscovery::matches_course_pattern` (`discovery.rs:321-330`).
`str::len` counts bytes, hence `String.utf8ByteSize`; `chars().zip(..)`
pairs unicode scalar values positionally. -/
def matches_course_pattern (course_id pattern : String) : Bool :=
  if course_id.utf8ByteSize != pattern.utf8ByteSize then false
  else
    (course_id.data.zip pattern.data).all (fun cp => cp.2 == 'x' || cp.2 == 'X' || cp.2 == cp.1)

/-- The body of the per-manifest mapping scan inside
`TemplateDiscovery::resolve_course_type` (`discovery.rs:301-313`): an
exact key match is checked first, then every `(pattern, ty)` pair is
tried with `matches_course_pattern`.  `none` means this mapping yields no
match and the loop continues with the next manifest. -/
def course_mapping_match (mapping : List (String × String)) (course_id : String) :
    Option String :=
  match assoc_lookup mapping course_id with
  | some mapped_type => some mapped_type
  | none => (mapping.find? (fun p => matches_course_pattern course_id p.1)).map (fun p => p.2)

/-- The per-config step of `resolve_course_type`: configs without a
`course_mapping` are skipped. -/
def config_course_match (config : TemplateConfig) (course_id : String) : Option String :=
  match config.course_mapping with
  | none => none
  | some mapping => course_mapping_match mapping course_id

/-- `TemplateDiscovery::resolve_course_type` (`discovery.rs:294-318`): the
first manifest (in load order) whose course mapping yields a match wins;
otherwise the fallback is returned unchanged. -/
def resolve_course_type (configs : List TemplateConfig) (course_id fallback : String) :
    String :=
  match configs with
  | [] => fallback
  | config :: rest =>
    match config_course_match config course_id with
    | some course_type => course_type
    | none => resolve_course_type rest course_id fallback

/-- `TemplateDiscovery::find_variants_for_template` (`discovery.rs:111-128`):
all variants across all configs whose `template` field equals the name,
in config order. -/
def find_variants_for_template (configs : List TemplateConfig) (template_name : String) :
    List TemplateVariant :=
  configs.foldl
    (fun variants config =>
      match config.variants with
      | some config_variants =>
        variants ++ config_variants.filter (fun v => v.template == template_name)
      | none => variants)
    []

/-- The filter predicate of `find_best_variant` (`discovery.rs:350-353`):
the variant's `course_types` contains the target course type or the
universal sentinel `"all"`. -/
def variant_matches_course_type (variant : TemplateVariant) (course_type : String) : Bool :=
  variant.course_types.contains course_type || variant.course_types.contains "all"

/-- `TemplateDiscovery::find_best_variant` (`discovery.rs:340-358`): filter
the variants for the template by course type and return the first
survivor. -/
def find_best_variant (configs : List TemplateConfig) (template_name course_type : String) :
    Option TemplateVariant :=
  ((find_variants_for_template configs template_name).filter
    (fun variant => variant_matches_course_type variant course_type)).head?

end TemplateDiscovery

/-! ## Manifest validation (`src/core/template/validation.rs`) -/

/-- `ValidationSeverity` (`validation.rs:20-24`). -/
inductive ValidationSeverity where
  | Error
  | Warning
  | Info
deriving DecidableEq, Repr

/-- `ValidationIssue` (`validation.rs:28-34`). -/
structure ValidationIssue where
  severity : ValidationSeverity
  category : String
  message : String
  suggestion : Option String
  location : Option String
deriving DecidableEq, Repr

/-- The location rewrite `issue.location = Some(..)` applied by
`validate_template_config` and `validate_system` to a batch of issues. -/
def with_location (location : String) (issue : ValidationIssue) : ValidationIssue :=
  { issue with location := some location }

namespace TemplateValidator

/-- Issue pushed by `validate_metadata` for an all-whitespace package name
(`validation.rs:242-250`). -/
def metadata_name_required_issue : ValidationIssue :=
  { severity := .Error
    category := "metadata"
    message := "Template package name is required"
    suggestion := none
    location := some "metadata.name" }

/-- Issue pushed by `validate_metadata` for an all-whitespace package
version (`validation.rs:252-260`). -/
def metadata_version_required_issue : ValidationIssue :=
  { severity := .Error
    category := "metadata"
    message := "Template package version is required"
    suggestion := none
    location := some "metadata.version" }

/-- Issue pushed by `validate_metadata` when the version does not parse as
semver (`validation.rs:263-274`). -/
def metadata_semver_issue (version : String) : ValidationIssue :=
  { severity := .Warning
    category := "metadata"
    message := "Version \x27" ++ version ++ "\x27 is not a valid semantic version"
    suggestion := some "Use format like \x271.0.0\x27"
    location := some "metadata.version" }

/-- `TemplateValidator::validate_metadata` (`validation.rs:237-277`).  Note
that the semver check runs unconditionally, after the emptiness check. -/
def validate_metadata (metadata : TemplateMetadata) : List ValidationIssue :=
  (if trim_is_empty metadata.name then [metadata_name_required_issue] else []) ++
  (if trim_is_empty metadata.version then [metadata_version_required_issue] else []) ++
  (if semver_is_valid metadata.version then [] else [metadata_semver_issue metadata.version])

/-- Issue for an all-whitespace template name (`validation.rs:282-290`). -/
def template_name_required_issue : ValidationIssue :=
  { severity := .Error
    category := "template"
    message := "Template name is required"
    suggestion := none
    location := some "name" }

/-- Issue for an all-whitespace template file path (`validation.rs:292-300`). -/
def template_file_required_issue : ValidationIssue :=
  { severity := .Error
    category := "template"
    message := "Template file path is required"
    suggestion := none
    location := some "file" }

/-- Issue for an all-whitespace template function name
(`validation.rs:302-310`). -/
def template_function_required_issue : ValidationIssue :=
  { severity := .Error
    category := "template"
    message := "Template function name is required"
    suggestion := none
    location := some "function" }

/-- Issue for a template file without the `.typ` extension
(`validation.rs:313-324`). -/
def template_file_extension_issue (file : String) : ValidationIssue :=
  { severity := .Warning
    category := "template"
    message := "Template file \x27" ++ file ++ "\x27 should have .typ extension"
    suggestion := some "Use .typ extension for Typst templates"
    location := some "file" }

/-- Issue for an all-whitespace entry in a definition's course types
(`validation.rs:327-338`). -/
def template_empty_course_type_issue : ValidationIssue :=
  { severity := .Warning
    category := "template"
    message := "Empty course type found"
    suggestion := some "Remove empty course types"
    location := some "course_types" }

/-- `TemplateValidator::validate_template_definition`
(`validation.rs:279-342`). -/
def validate_template_definition (template : TemplateDefinition) : List ValidationIssue :=
  (if trim_is_empty template.name then [template_name_required_issue] else []) ++
  (if trim_is_empty template.file then [template_file_required_issue] else []) ++
  (if trim_is_empty template.function then [template_function_required_issue] else []) ++
  (if string_ends_with template.file ".typ" then []
   else [template_file_extension_issue template.file]) ++
  (match template.course_types with
   | none => []
   | some course_types =>
     course_types.flatMap
       (fun course_type =>
         if trim_is_empty course_type then [template_empty_course_type_issue] else []))

/-- Issue for a variant whose base template does not exist
(`validation.rs:352-360`). -/
def variant_base_template_issue (template : String) : ValidationIssue :=
  { severity := .Error
    category := "variant"
    message := "Base template \x27" ++ template ++ "\x27 not found"
    suggestion := some "Define the base template first"
    location := some "template" }

/-- Issue for an all-whitespace variant name (`validation.rs:362-370`). -/
def variant_name_required_issue : ValidationIssue :=
  { severity := .Error
    category := "variant"
    message := "Variant name is required"
    suggestion := none
    location := some "name" }

/-- Issue for a variant with an empty course-type list
(`validation.rs:372-380`). -/
def variant_course_types_issue : ValidationIssue :=
  { severity := .Warning
    category := "variant"
    message := "Variant should specify course types"
    suggestion := some "Add course_types to improve template selection"
    location := some "course_types" }

/-- `TemplateValidator::validate_template_variant` (`validation.rs:344-383`). -/
def validate_template_variant (variant : TemplateVariant)
    (templates : List TemplateDefinition) : List ValidationIssue :=
  (if templates.any (fun t => t.name == variant.template) then []
   else [variant_base_template_issue variant.template]) ++
  (if trim_is_empty variant.name then [variant_name_required_issue] else []) ++
  (if variant.course_types.isEmpty then [variant_course_types_issue] else [])

/-- Issue for an all-whitespace course-mapping pattern
(`validation.rs:389-397`). -/
def mapping_empty_pattern_issue : ValidationIssue :=
  { severity := .Warning
    category := "course_mapping"
    message := "Empty course pattern found"
    suggestion := some "Remove empty patterns"
    location := none }

/-- Issue for an all-whitespace course type in the mapping
(`validation.rs:399-407`). -/
def mapping_empty_course_type_issue (pattern : String) : ValidationIssue :=
  { severity := .Warning
    category := "course_mapping"
    message := "Empty course type for pattern \x27" ++ pattern ++ "\x27"
    suggestion := some "Provide a valid course type"
    location := none }

/-- Issue for a pattern with `xxx` not at the end (`validation.rs:410-418`). -/
def mapping_malformed_pattern_issue (pattern : String) : ValidationIssue :=
  { severity := .Info
    category := "course_mapping"
    message := "Pattern \x27" ++ pattern ++ "\x27 might be malformed"
    suggestion := some "Use patterns like \x2701xxx\x27 for course prefixes"
    location := none }

/-- `TemplateValidator::validate_course_mapping` (`validation.rs:385-422`). -/
def validate_course_mapping (mapping : List (String × String)) : List ValidationIssue :=
  mapping.flatMap
    (fun p =>
      (if trim_is_empty p.1 then [mapping_empty_pattern_issue] else []) ++
      (if trim_is_empty p.2 then [mapping_empty_course_type_issue p.1] else []) ++
      (if string_contains p.1 "xxx" && !string_ends_with p.1 "xxx"
       then [mapping_malformed_pattern_issue p.1] else []))

/-- Issue for a non-semver `minimum_noter_version` (`validation.rs:428-439`). -/
def engine_min_version_issue (version : String) : ValidationIssue :=
  { severity := .Warning
    category := "engine"
    message := "Invalid minimum_noter_version: " ++ version
    suggestion := some "Use semantic versioning format"
    location := some "compatibility.minimum_noter_version" }

/-- Issue for a zero rendering timeout (`validation.rs:442-450`). -/
def engine_timeout_issue : ValidationIssue :=
  { severity := .Warning
    category := "engine"
    message := "Rendering timeout is set to 0 seconds"
    suggestion := some "Set a reasonable timeout (e.g., 30 seconds)"
    location := some "rendering.timeout_seconds" }

/-- Issue for a zero concurrency cap (`validation.rs:452-460`). -/
def engine_concurrent_issue : ValidationIssue :=
  { severity := .Warning
    category := "engine"
    message := "Max concurrent processing is set to 0"
    suggestion := some "Set at least 1 for processing capability"
    location := some "rendering.max_concurrent" }

/-- `TemplateValidator::validate_engine_config` (`validation.rs:424-463`). -/
def validate_engine_config (engine : EngineConfig) : List ValidationIssue :=
  (if semver_is_valid engine.compatibility.minimum_noter_version then []
   else [engine_min_version_issue engine.compatibility.minimum_noter_version]) ++
  (if engine.rendering.timeout_seconds == 0 then [engine_timeout_issue] else []) ++
  (if engine.rendering.max_concurrent == 0 then [engine_concurrent_issue] else [])

/-- `TemplateValidator::validate_template_config` (`validation.rs:84-122`):
metadata, then each template definition (its issues relocated to
`templates[i]`), then each variant (relocated to `variants[i]`), then the
course mapping, then the engine configuration.  Always returns `Ok` in
Rust, hence a plain list here. -/
def validate_template_config (config : TemplateConfig) : List ValidationIssue :=
  validate_metadata config.metadata ++
  (config.templates.enum.flatMap
    (fun p =>
      (validate_template_definition p.2).map
        (with_location ("templates[" ++ toString p.1 ++ "]")))) ++
  (match config.variants with
   | none => []
   | some variants =>
     variants.enum.flatMap
       (fun p =>
         (validate_template_variant p.2 config.templates).map
           (with_location ("variants[" ++ toString p.1 ++ "]")))) ++
  (match config.course_mapping with
   | none => []
   | some mapping => validate_course_mapping mapping) ++
  (match config.engine with
   | none => []
   | some engine => validate_engine_config engine)

/-- The duplicate-template warning of `validate_cross_configurations`
(`validation.rs:473-481`). -/
def duplicate_template_issue (name : String) (existing_config_index config_index : Nat) :
    ValidationIssue :=
  { severity := .Warning
    category := "cross_config"
    message := "Template \x27" ++ name ++ "\x27 is defined in multiple configurations (config "
      ++ toString existing_config_index ++ " and " ++ toString config_index ++ ")"
    suggestion := some "Consider renaming templates to avoid conflicts"
    location := some ("template." ++ name) }

/-- Key lookup in the `template_names` map of
`validate_cross_configurations`; models `HashMap::<String,usize>::get`. -/
def lookup_config_index (seen : List (String × Nat)) (name : String) : Option Nat :=
  (seen.find? (fun p => p.1 == name)).map (fun p => p.2)

/-- The flattened iteration order of the two nested loops of
`validate_cross_configurations`: every template-name occurrence paired
with its config index, configs in load order. -/
def cross_occurrences (configs : List TemplateConfig) : List (String × Nat) :=
  configs.enum.flatMap (fun p => p.2.templates.map (fun t => (t.name, p.1)))

/-- The loop body of `validate_cross_configurations` (`validation.rs:470-487`):
a seen name yields a warning naming the first config that defined it; an
unseen name is recorded with its config index. -/
def cross_config_loop : List (String × Nat) → List (String × Nat) → List ValidationIssue
  | [], _ => []
  | (name, config_index) :: rest, seen =>
    match lookup_config_index seen name with
    | some existing_config_index =>
      duplicate_template_issue name existing_config_index config_index ::
        cross_config_loop rest seen
    | none => cross_config_loop rest ((name, config_index) :: seen)

/-- `TemplateValidator::validate_cross_configurations`
(`validation.rs:465-490`). -/
def validate_cross_configurations (configs : List TemplateConfig) : List ValidationIssue :=
  cross_config_loop (cross_occurrences configs) []

/-- The `template_names` map contents after processing a prefix of the
occurrence list (used to reason about `cross_config_loop` on appends). -/
def seen_after : List (String × Nat) → List (String × Nat) → List (String × Nat)
  | [], seen => seen
  | (name, config_index) :: rest, seen =>
    match lookup_config_index seen name with
    | some _ => seen_after rest seen
    | none => seen_after rest ((name, config_index) :: seen)

end TemplateValidator

/-! ## Template engine (`src/core/template_engine.rs`) -/

/-- `TemplateContext` (`template_engine.rs:76-86`). -/
structure TemplateContext where
  course_id : String
  course_name : String
  title : String
  author : String
  date : String
  semester : String
  template_version : String
  sections : List String
  custom_fields : List (String × String)
deriving DecidableEq, Repr

/-- `TemplateType` (`template_engine.rs:96-100`). -/
inductive TemplateType where
  | Lecture
  | Assignment
  | Custom (name : String)
deriving DecidableEq, Repr

namespace TemplateEngine

/-- The header text of `generate_typst_header` with the course-name
parameter of the `.with(..)` invocation made explicit, mirroring the
`format!` call at `template_engine.rs:319-338`. -/
def typst_header_with_course_name (context : TemplateContext)
    (template_type : TemplateType) (import_statement course_name : String) : String :=
  let template_name :=
    match template_type with
    | .Lecture => "dtu-note"
    | .Assignment => "dtu-assignment"
    | .Custom template => template
  let date_param :=
    match template_type with
    | .Assignment => "due-date"
    | _ => "date"
  import_statement ++ "\n\n#show: " ++ template_name ++ ".with(\n  course: \"" ++
    context.course_id ++ "\",\n  course-name: \"" ++ course_name ++ "\",\n  title: \"" ++
    context.title ++ "\",\n  " ++ date_param ++ ": datetime.today(),\n  author: \"" ++
    context.author ++ "\",\n  semester: \"" ++ context.semester ++ "\"\n)"

/-- `TemplateEngine::generate_typst_header` (`template_engine.rs:293-339`).
The import statement is produced by the disk-probing
`determine_template_import` in Rust; it is abstracted as a parameter
here, as the design specification directs for the installed-package
resolver.  The course-name parameter falls back to `course_id` when
`course_name` is empty (`template_engine.rs:310-314`). -/
def generate_typst_header (context : TemplateContext) (template_type : TemplateType)
    (import_statement : String) : String :=
  typst_header_with_course_name context template_type import_statement
    (if context.course_name.data.isEmpty then context.course_id else context.course_name)

end TemplateEngine

/-- Modelled from the spec: the variant section-override step of the
Template Renderer (`src/core/template/engine.rs`, referenced from
`core/template/mod.rs` but not present under `src/`).  Spec §4.4: a
selected variant "may either *append* (`additional_sections`) to or
*wholly replace* (`override_sections`) the definition's
`default_sections` ... replace wins over append if both are present; if
neither is present the variant contributes no section changes." -/
def apply_variant_sections (default_sections : List String)
    (variant : Option TemplateVariant) : List String :=
  match variant with
  | none => default_sections
  | some v =>
    match v.override_sections with
    | some override_sections => override_sections
    | none =>
      match v.additional_sections with
      | some additional_sections => default_sections ++ additional_sections
      | none => default_sections

/-! ## Helper lemmas -/

/-- A string's character list is empty exactly when the string is `""`. -/
theorem string_data_eq_nil_iff (s : String) : s.data = [] ↔ s = "" := by
  constructor
  · intro h
    cases s with
    | mk data => cases h; rfl
  · intro h
    subst h
    rfl

/-! ## C1: course-pattern matching -/

/-- C1.  For every course id `c` and pattern `p`, the course-pattern
matcher returns true iff `c` and `p` have equal length and at every
position the pattern character is the wildcard `x`/`X` or equals the
course-id character there; differing lengths always yield false. -/
theorem matches_course_pattern_iff (c p : String) :
    (TemplateDiscovery.matches_course_pattern c p = true ↔
      (c.utf8ByteSize = p.utf8ByteSize ∧
        ∀ (i : Nat) (hc : i < c.data.length) (hp : i < p.data.length),
          p.data.get ⟨i, hp⟩ = 'x' ∨ p.data.get ⟨i, hp⟩ = 'X' ∨
            p.data.get ⟨i, hp⟩ = c.data.get ⟨i, hc⟩))
    ∧ (c.utf8ByteSize ≠ p.utf8ByteSize →
        TemplateDiscovery.matches_course_pattern c p = false) := by
  constructor
  · rw [TemplateDiscovery.matches_course_pattern]
    constructor
    · intro h
      by_cases hb : c.utf8ByteSize = p.utf8ByteSize
      · refine ⟨hb, ?_⟩
        intro i hc hp
        rw [if_neg (by simp [hb])] at h
        have hmem : (c.data.get ⟨i, hc⟩, p.data.get ⟨i, hp⟩) ∈ c.data.zip p.data := by
          rw [List.mem_iff_getElem]
          refine ⟨i, by rw [List.length_zip]; omega, ?_⟩
          rw [List.getElem_zip]
          simp
        have h3 := List.all_eq_true.mp h _ hmem
        simp only [List.get_eq_getElem] at h3 ⊢
        simp at h3
        tauto
      · rw [if_pos (by simp [hb])] at h
        exact absurd h (by simp)
    · rintro ⟨hb, hpos⟩
      rw [if_neg (by simp [hb])]
      refine List.all_eq_true.mpr ?_
      rintro ⟨a, b⟩ hmem
      rw [List.mem_iff_getElem] at hmem
      obtain ⟨i, hi, heq⟩ := hmem
      rw [List.length_zip] at hi
      have hic : i < c.data.length := lt_of_lt_of_le hi (Nat.min_le_left _ _)
      have hip : i < p.data.length := lt_of_lt_of_le hi (Nat.min_le_right _ _)
      rw [List.getElem_zip, Prod.mk.injEq] at heq
      obtain ⟨ha, hb2⟩ := heq
      subst ha
      subst hb2
      have h4 := hpos i hic hip
      simp only [List.get_eq_getElem] at h4
      rcases h4 with h4 | h4 | h4 <;> simp [h4]
  · intro hne
    rw [TemplateDiscovery.matches_course_pattern, if_pos (by simp [hne])]

/-- A concrete instantiation of `matches_course_pattern_iff`. -/
theorem matches_course_pattern_iff_witness :
    TemplateDiscovery.matches_course_pattern "1005" "01xxx" = false :=
  (matches_course_pattern_iff "1005" "01xxx").2 (by decide)

/-! ## C2: course-type resolution precedence -/

/-- C2.  `resolve_course_type` returns the course type of the first
manifest (in load order) whose course mapping yields a match — an exact
key match being checked before pattern matches within a manifest — even
if later manifests also match; with no match anywhere it returns the
fallback unchanged. -/
theorem resolve_course_type_precedence
    (configs pre post : List TemplateConfig) (c : TemplateConfig)
    (course_id fallback course_type : String) :
    ((∀ m ∈ configs, TemplateDiscovery.config_course_match m course_id = none) →
      TemplateDiscovery.resolve_course_type configs course_id fallback = fallback)
    ∧ ((∀ m ∈ pre, TemplateDiscovery.config_course_match m course_id = none) →
        TemplateDiscovery.config_course_match c course_id = some course_type →
        TemplateDiscovery.resolve_course_type (pre ++ c :: post) course_id fallback
          = course_type)
    ∧ (∀ (mapping : List (String × String)) (ty : String),
        assoc_lookup mapping course_id = some ty →
        TemplateDiscovery.course_mapping_match mapping course_id = some ty) := by
  refine ⟨?_, ?_, ?_⟩
  · induction configs with
    | nil => intro _; rfl
    | cons a rest ih =>
      intro h
      rw [TemplateDiscovery.resolve_course_type, h a (List.mem_cons_self a rest)]
      exact ih (fun m hm => h m (List.mem_cons_of_mem a hm))
  · induction pre with
    | nil =>
      intro _ hc
      rw [List.nil_append, TemplateDiscovery.resolve_course_type, hc]
    | cons a rest ih =>
      intro h hc
      rw [List.cons_append, TemplateDiscovery.resolve_course_type,
        h a (List.mem_cons_self a rest)]
      exact ih (fun m hm => h m (List.mem_cons_of_mem a hm)) hc
  · intro mapping ty h
    rw [TemplateDiscovery.course_mapping_match, h]

/-- A concrete instantiation of `resolve_course_type_precedence`,
mirroring the `test_course_type_resolution` unit test: the pattern
`01xxx → math` of the first manifest wins over a later manifest. -/
theorem resolve_course_type_precedence_witness :
    TemplateDiscovery.resolve_course_type
      [{ metadata := { name := "config1", version := "1.0", description := none,
                       repository := none, author := none, license := none },
         templates := [], variants := none,
         course_mapping := some [("01xxx", "math"), ("02xxx", "programming")],
         engine := none },
       { metadata := { name := "config2", version := "1.0", description := none,
                       repository := none, author := none, license := none },
         templates := [], variants := none,
         course_mapping := some [("25xxx", "physics")],
         engine := none }]
      "01005" "unknown" = "math" :=
  (resolve_course_type_precedence [] []
    [{ metadata := { name := "config2", version := "1.0", description := none,
                     repository := none, author := none, license := none },
       templates := [], variants := none,
       course_mapping := some [("25xxx", "physics")],
       engine := none }]
    { metadata := { name := "config1", version := "1.0", description := none,
                    repository := none, author := none, license := none },
      templates := [], variants := none,
      course_mapping := some [("01xxx", "math"), ("02xxx", "programming")],
      engine := none }
    "01005" "unknown" "math").2.1 (by intro m hm; cases hm) (by decide)

/-! ## C3: variant selection -/

/-- C3.  `find_best_variant` returns the first variant, in discovery
order among the variants of the named template, whose `course_types`
contains the target course type or the sentinel `"all"`, and `none` when
no variant qualifies; `["all"]` qualifies for every course type and
`["physics"]` exactly for `"physics"`. -/
theorem find_best_variant_selection
    (configs : List TemplateConfig) (template_name course_type : String)
    (pre post : List TemplateVariant) (v : TemplateVariant) :
    ((∀ u ∈ TemplateDiscovery.find_variants_for_template configs template_name,
        TemplateDiscovery.variant_matches_course_type u course_type = false) →
      TemplateDiscovery.find_best_variant configs template_name course_type = none)
    ∧ (TemplateDiscovery.find_variants_for_template configs template_name
          = pre ++ v :: post →
        (∀ u ∈ pre, TemplateDiscovery.variant_matches_course_type u course_type = false) →
        TemplateDiscovery.variant_matches_course_type v course_type = true →
        TemplateDiscovery.find_best_variant configs template_name course_type = some v)
    ∧ (∀ u : TemplateVariant, u.course_types = ["all"] →
        TemplateDiscovery.variant_matches_course_type u course_type = true)
    ∧ (∀ u : TemplateVariant, u.course_types = ["physics"] →
        (TemplateDiscovery.variant_matches_course_type u course_type = true ↔
          course_type = "physics")) := by
  refine ⟨?_, ?_, ?_, ?_⟩
  · intro h
    rw [TemplateDiscovery.find_best_variant,
      List.filter_eq_nil_iff.mpr (fun u hu => by simp [h u hu])]
    rfl
  · intro he hpre hv
    rw [TemplateDiscovery.find_best_variant, he, List.filter_append,
      List.filter_eq_nil_iff.mpr (fun u hu => by simp [hpre u hu]),
      List.filter_cons, if_pos hv, List.nil_append, List.head?_cons]
  · intro u h
    rw [TemplateDiscovery.variant_matches_course_type, h]
    simp
  · intro u h
    rw [TemplateDiscovery.variant_matches_course_type, h]
    constructor
    · intro hb
      rcases Bool.or_eq_true_iff.mp hb with hb | hb
      · have := List.mem_of_elem_eq_true hb
        simpa [eq_comm] using this
      · exact absurd (List.mem_of_elem_eq_true hb) (by simp)
    · intro hb
      subst hb
      decide

/-- A concrete instantiation of `find_best_variant_selection`: a single
`["all"]` variant is selected for the course type `"math"`. -/
theorem find_best_variant_selection_witness :
    TemplateDiscovery.find_best_variant
      [{ metadata := { name := "pkg", version := "1.0.0", description := none,
                       repository := none, author := none, license := none },
         templates := [], variants := some
           [{ template := "lecture-note", name := "universal", display_name := "U",
              course_types := ["all"], file := "u.typ", function := none,
              additional_sections := none, override_sections := none }],
         course_mapping := none, engine := none }]
      "lecture-note" "math"
      = some { template := "lecture-note", name := "universal", display_name := "U",
               course_types := ["all"], file := "u.typ", function := none,
               additional_sections := none, override_sections := none } :=
  (find_best_variant_selection
    [{ metadata := { name := "pkg", version := "1.0.0", description := none,
                     repository := none, author := none, license := none },
       templates := [], variants := some
         [{ template := "lecture-note", name := "universal", display_name := "U",
            course_types := ["all"], file := "u.typ", function := none,
            additional_sections := none, override_sections := none }],
       course_mapping := none, engine := none }]
    "lecture-note" "math" [] []
    { template := "lecture-note", name := "universal", display_name := "U",
      course_types := ["all"], file := "u.typ", function := none,
      additional_sections := none, override_sections := none }).2.1
    (by decide) (by intro u hu; cases hu) (by decide)

/-! ## C4: variant section-override precedence -/

/-- C4.  A selected variant carrying both `additional_sections` and a
non-empty `override_sections` makes the rendered section list equal
`override_sections` exactly, ignoring the base `default_sections` and the
variant's own `additional_sections`; a variant with neither field changes
nothing. -/
theorem apply_variant_sections_override
    (default_sections adds overrides : List String) (v : TemplateVariant) :
    (v.additional_sections = some adds → v.override_sections = some overrides →
      overrides ≠ [] →
      apply_variant_sections default_sections (some v) = overrides)
    ∧ (v.additional_sections = none → v.override_sections = none →
      apply_variant_sections default_sections (some v) = default_sections) := by
  constructor
  · intro _ ho _
    rw [apply_variant_sections, ho]
  · intro ha ho
    rw [apply_variant_sections, ho, ha]

/-- A concrete instantiation of `apply_variant_sections_override`. -/
theorem apply_variant_sections_override_witness :
    apply_variant_sections ["Notes", "Summary"]
      (some { template := "lecture-note", name := "phys", display_name := "P",
              course_types := ["physics"], file := "p.typ", function := none,
              additional_sections := some ["Lab"],
              override_sections := some ["Theory", "Experiment"] })
      = ["Theory", "Experiment"] :=
  (apply_variant_sections_override ["Notes", "Summary"] ["Lab"] ["Theory", "Experiment"]
    { template := "lecture-note", name := "phys", display_name := "P",
      course_types := ["physics"], file := "p.typ", function := none,
      additional_sections := some ["Lab"],
      override_sections := some ["Theory", "Experiment"] }).1
    rfl rfl (by decide)

/-! ## C8: header course-name fallback -/

/-- C8.  The generated Typst header passes `course_id` as the course-name
parameter when the context's `course_name` is empty, and passes
`course_name` verbatim otherwise. -/
theorem generate_typst_header_course_name_fallback
    (context : TemplateContext) (template_type : TemplateType)
    (import_statement : String) :
    (context.course_name = "" →
      TemplateEngine.generate_typst_header context template_type import_statement
        = TemplateEngine.typst_header_with_course_name context template_type
            import_statement context.course_id)
    ∧ (context.course_name ≠ "" →
      TemplateEngine.generate_typst_header context template_type import_statement
        = TemplateEngine.typst_header_with_course_name context template_type
            import_statement context.course_name) := by
  constructor
  · intro h
    rw [TemplateEngine.generate_typst_header, if_pos]
    rw [h]
    rfl
  · intro h
    rw [TemplateEngine.generate_typst_header, if_neg]
    intro hempty
    exact h ((string_data_eq_nil_iff context.course_name).mp
      (List.isEmpty_iff.mp hempty))

/-- A concrete instantiation of `generate_typst_header_course_name_fallback`:
with an empty course name the header is the one whose course-name
parameter is the course id. -/
theorem generate_typst_header_course_name_fallback_witness :
    TemplateEngine.generate_typst_header
      { course_id := "02101", course_name := "", title := "Lecture Notes",
        author := "A. Student", date := "2025-09-01", semester := "2025 Fall",
        template_version := "0.1.0", sections := [], custom_fields := [] }
      TemplateType.Lecture "#import \"@local/dtu-template:0.1.0\":*"
      = TemplateEngine.typst_header_with_course_name
          { course_id := "02101", course_name := "", title := "Lecture Notes",
            author := "A. Student", date := "2025-09-01", semester := "2025 Fall",
            template_version := "0.1.0", sections := [], custom_fields := [] }
          TemplateType.Lecture "#import \"@local/dtu-template:0.1.0\":*" "02101" :=
  (generate_typst_header_course_name_fallback
    { course_id := "02101", course_name := "", title := "Lecture Notes",
      author := "A. Student", date := "2025-09-01", semester := "2025 Fall",
      template_version := "0.1.0", sections := [], custom_fields := [] }
    TemplateType.Lecture "#import \"@local/dtu-template:0.1.0\":*").1 rfl

/-! ## Helper lemmas about `split_at_first` and semver parsing -/

/-- `split_at_first` finds nothing when the separator does not occur. -/
theorem split_at_first_eq_of_forall (sep : Char) (l : List Char)
    (h : ∀ c ∈ l, c ≠ sep) : split_at_first sep l = (l, none) := by
  induction l with
  | nil => rfl
  | cons c t ih =>
    have hc := h c (List.mem_cons_self c t)
    have ht := ih (fun x hx => h x (List.mem_cons_of_mem c hx))
    simp [split_at_first, hc, ht]

/-- A whitespace character is distinct from any non-whitespace character. -/
theorem ne_of_isWhitespace {c : Char} (h : c.isWhitespace = true) {d : Char}
    (hd : d.isWhitespace = false) : c ≠ d := by
  intro he
  subst he
  rw [h] at hd
  cases hd

/-- An all-whitespace (in particular: empty) version string is not valid
semver, so `validate_metadata`'s semver check fires whenever its
required-version check does. -/
theorem semver_invalid_of_whitespace (s : String) (h : trim_is_empty s = true) :
    semver_is_valid s = false := by
  have hall : ∀ c ∈ s.data, c.isWhitespace = true := by
    simpa [trim_is_empty] using h
  have hplus : split_at_first '+' s.data = (s.data, none) :=
    split_at_first_eq_of_forall _ _
      (fun c hc => ne_of_isWhitespace (hall c hc) (by decide))
  have hminus : split_at_first '-' s.data = (s.data, none) :=
    split_at_first_eq_of_forall _ _
      (fun c hc => ne_of_isWhitespace (hall c hc) (by decide))
  have hdot : s.data.splitOn '.' = [s.data] := by
    rw [List.splitOn]
    exact List.splitOnP_eq_single _ _
      (fun x hx => by simpa using ne_of_isWhitespace (hall x hx) (by decide))
  simp [semver_is_valid, hplus, hminus, hdot]

/-! ## C10: empty version yields both the required-version error and the
semver warning -/

/-- C10.  For every manifest whose `metadata.version` is empty or
whitespace-only, `validate_template_config` emits both an Error that the
package version is required and a Warning that the version is not valid
semver — two distinct issues for the one field; the semver check is not
skipped when the required-field check fails. -/
theorem validate_metadata_empty_version_two_issues (config : TemplateConfig)
    (h : trim_is_empty config.metadata.version = true) :
    TemplateValidator.metadata_version_required_issue
        ∈ TemplateValidator.validate_template_config config
    ∧ TemplateValidator.metadata_semver_issue config.metadata.version
        ∈ TemplateValidator.validate_template_config config
    ∧ TemplateValidator.metadata_version_required_issue
        ≠ TemplateValidator.metadata_semver_issue config.metadata.version
    ∧ TemplateValidator.metadata_version_required_issue.severity
        = ValidationSeverity.Error
    ∧ (TemplateValidator.metadata_semver_issue config.metadata.version).severity
        = ValidationSeverity.Warning := by
  have hsem := semver_invalid_of_whitespace _ h
  have hmem1 : TemplateValidator.metadata_version_required_issue
      ∈ TemplateValidator.validate_metadata config.metadata := by
    simp [TemplateValidator.validate_metadata, h, hsem]
  have hmem2 : TemplateValidator.metadata_semver_issue config.metadata.version
      ∈ TemplateValidator.validate_metadata config.metadata := by
    simp [TemplateValidator.validate_metadata, h, hsem]
  refine ⟨?_, ?_, ?_, rfl, rfl⟩
  · rw [TemplateValidator.validate_template_config]
    exact List.mem_append_left _ (List.mem_append_left _ (List.mem_append_left _
      (List.mem_append_left _ hmem1)))
  · rw [TemplateValidator.validate_template_config]
    exact List.mem_append_left _ (List.mem_append_left _ (List.mem_append_left _
      (List.mem_append_left _ hmem2)))
  · intro he
    have := congrArg ValidationIssue.severity he
    simp [TemplateValidator.metadata_version_required_issue,
      TemplateValidator.metadata_semver_issue] at this

/-- A concrete instantiation of `validate_metadata_empty_version_two_issues`
at a manifest whose version is the empty string. -/
theorem validate_metadata_empty_version_two_issues_witness :
    TemplateValidator.metadata_version_required_issue
        ∈ TemplateValidator.validate_template_config
            { metadata := { name := "pkg", version := "", description := none,
                            repository := none, author := none, license := none },
              templates := [], variants := none, course_mapping := none,
              engine := none }
    ∧ TemplateValidator.metadata_semver_issue "" ∈
        TemplateValidator.validate_template_config
            { metadata := { name := "pkg", version := "", description := none,
                            repository := none, author := none, license := none },
              templates := [], variants := none, course_mapping := none,
              engine := none }
    ∧ TemplateValidator.metadata_version_required_issue
        ≠ TemplateValidator.metadata_semver_issue ""
    ∧ TemplateValidator.metadata_version_required_issue.severity
        = ValidationSeverity.Error
    ∧ (TemplateValidator.metadata_semver_issue "").severity
        = ValidationSeverity.Warning :=
  validate_metadata_empty_version_two_issues
    { metadata := { name := "pkg", version := "", description := none,
                    repository := none, author := none, license := none },
      templates := [], variants := none, course_mapping := none, engine := none }
    (by decide)

/-! ## C6: three independent defects yield exactly three issues -/

/-- C6.  A manifest with exactly three independent defects — a template
definition with an empty name, a non-empty but non-semver metadata
version, and a variant (referencing an existing template, with non-empty
name) whose `course_types` is empty — yields exactly the three
corresponding issues from one `validate_template_config` call: no defect
halts collection of the remaining issues. -/
theorem validate_template_config_three_defects
    (config : TemplateConfig) (t : TemplateDefinition) (v : TemplateVariant)
    (h_templates : config.templates = [t])
    (h_variants : config.variants = some [v])
    (h_mapping : config.course_mapping = none)
    (h_engine : config.engine = none)
    (h_meta_name : trim_is_empty config.metadata.name = false)
    (h_ver_nonempty : trim_is_empty config.metadata.version = false)
    (h_ver_semver : semver_is_valid config.metadata.version = false)
    (h_t_name : trim_is_empty t.name = true)
    (h_t_file : trim_is_empty t.file = false)
    (h_t_ext : string_ends_with t.file ".typ" = true)
    (h_t_function : trim_is_empty t.function = false)
    (h_t_course_types : t.course_types = none)
    (h_v_template : v.template = t.name)
    (h_v_name : trim_is_empty v.name = false)
    (h_v_course_types : v.course_types = []) :
    TemplateValidator.validate_template_config config =
      [TemplateValidator.metadata_semver_issue config.metadata.version,
       with_location "templates[0]" TemplateValidator.template_name_required_issue,
       with_location "variants[0]" TemplateValidator.variant_course_types_issue]
    ∧ (TemplateValidator.validate_template_config config).length = 3 := by
  have hbase : config.templates.any (fun td => td.name == v.template) = true := by
    rw [h_templates, h_v_template]
    simp
  have hmain : TemplateValidator.validate_template_config config =
      [TemplateValidator.metadata_semver_issue config.metadata.version,
       with_location "templates[0]" TemplateValidator.template_name_required_issue,
       with_location "variants[0]" TemplateValidator.variant_course_types_issue] := by
    rw [TemplateValidator.validate_template_config, h_variants, h_mapping, h_engine]
    rw [TemplateValidator.validate_metadata, h_meta_name, h_ver_nonempty, h_ver_semver]
    rw [h_templates] at hbase ⊢
    simp only [List.enum_cons, List.enum_nil, List.flatMap_cons, List.flatMap_nil,
      List.append_nil, List.nil_append]
    rw [TemplateValidator.validate_template_definition, h_t_name, h_t_file, h_t_ext,
      h_t_function, h_t_course_types]
    rw [TemplateValidator.validate_template_variant, hbase, h_v_name, h_v_course_types]
    simp [with_location]
    exact ⟨rfl, rfl⟩
  exact ⟨hmain, by rw [hmain]; rfl⟩

/-- A concrete instantiation of `validate_template_config_three_defects`. -/
theorem validate_template_config_three_defects_witness :
    TemplateValidator.validate_template_config
      { metadata := { name := "pkg", version := "1.0", description := none,
                      repository := none, author := none, license := none },
        templates := [{ name := "", display_name := "Lecture", description := "d",
                        file := "lecture.typ", function := "lecture-note",
                        supports_variants := true, course_types := none,
                        default_sections := [] }],
        variants := some [{ template := "", name := "math-variant",
                            display_name := "Math", course_types := [],
                            file := "math.typ", function := none,
                            additional_sections := none, override_sections := none }],
        course_mapping := none, engine := none } =
      [TemplateValidator.metadata_semver_issue "1.0",
       with_location "templates[0]" TemplateValidator.template_name_required_issue,
       with_location "variants[0]" TemplateValidator.variant_course_types_issue]
    ∧ (TemplateValidator.validate_template_config
      { metadata := { name := "pkg", version := "1.0", description := none,
                      repository := none, author := none, license := none },
        templates := [{ name := "", display_name := "Lecture", description := "d",
                        file := "lecture.typ", function := "lecture-note",
                        supports_variants := true, course_types := none,
                        default_sections := [] }],
        variants := some [{ template := "", name := "math-variant",
                            display_name := "Math", course_types := [],
                            file := "math.typ", function := none,
                            additional_sections := none, override_sections := none }],
        course_mapping := none, engine := none }).length = 3 :=
  validate_template_config_three_defects
    { metadata := { name := "pkg", version := "1.0", description := none,
                    repository := none, author := none, license := none },
      templates := [{ name := "", display_name := "Lecture", description := "d",
                      file := "lecture.typ", function := "lecture-note",
                      supports_variants := true, course_types := none,
                      default_sections := [] }],
      variants := some [{ template := "", name := "math-variant",
                          display_name := "Math", course_types := [],
                          file := "math.typ", function := none,
                          additional_sections := none, override_sections := none }],
      course_mapping := none, engine := none }
    { name := "", display_name := "Lecture", description := "d",
      file := "lecture.typ", function := "lecture-note",
      supports_variants := true, course_types := none, default_sections := [] }
    { template := "", name := "math-variant", display_name := "Math",
      course_types := [], file := "math.typ", function := none,
      additional_sections := none, override_sections := none }
    rfl rfl rfl rfl (by decide) (by decide) (by decide) (by decide) (by decide)
    (by decide) (by decide) rfl rfl (by decide) rfl

/-! ## C7: cross-manifest duplicate detection -/

/-- Unfolding `lookup_config_index` on a cons cell. -/
theorem lookup_config_index_cons (a : String × Nat) (seen : List (String × Nat))
    (n : String) :
    TemplateValidator.lookup_config_index (a :: seen) n
      = if a.1 == n then some a.2 else TemplateValidator.lookup_config_index seen n := by
  obtain ⟨an, av⟩ := a
  by_cases ha : (an == n) = true
  · simp [TemplateValidator.lookup_config_index, List.find?_cons, ha]
  · simp [TemplateValidator.lookup_config_index, List.find?_cons, ha]

/-- A successful lookup returns a recorded pair. -/
theorem lookup_config_index_mem (seen : List (String × Nat)) (n : String) (v : Nat)
    (h : TemplateValidator.lookup_config_index seen n = some v) : (n, v) ∈ seen := by
  rw [TemplateValidator.lookup_config_index] at h
  obtain ⟨p, hfind, hv⟩ := Option.map_eq_some'.mp h
  have hmem := List.mem_of_find?_eq_some hfind
  have hpred := List.find?_some hfind
  obtain ⟨pn, pv⟩ := p
  simp only at hv
  have : pn = n := by simpa using hpred
  subst this
  subst hv
  exact hmem

/-- Every pair recorded by `seen_after` keeps the config index it was
inserted with. -/
theorem seen_after_values (xs : List (String × Nat)) :
    ∀ (seen : List (String × Nat)), (∀ p ∈ xs, p.2 = 0) → (∀ p ∈ seen, p.2 = 0) →
    ∀ p ∈ TemplateValidator.seen_after xs seen, p.2 = 0 := by
  induction xs with
  | nil => exact fun seen _ hseen p hp => hseen p hp
  | cons q rest ih =>
    intro seen hxs hseen
    obtain ⟨qn, qi⟩ := q
    rw [TemplateValidator.seen_after]
    cases hl : TemplateValidator.lookup_config_index seen qn with
    | some e =>
      exact ih seen (fun p hp => hxs p (List.mem_cons_of_mem _ hp)) hseen
    | none =>
      refine ih ((qn, qi) :: seen) (fun p hp => hxs p (List.mem_cons_of_mem _ hp)) ?_
      intro p hp
      rcases List.mem_cons.mp hp with rfl | hp
      · exact hxs (qn, qi) (List.mem_cons_self _ _)
      · exact hseen p hp

/-- After processing `xs`, every name occurring in `xs` (and every name
already recorded) is recorded. -/
theorem lookup_seen_after_isSome (xs : List (String × Nat)) :
    ∀ (seen : List (String × Nat)) (n : String),
    (n ∈ xs.map Prod.fst ∨
      (TemplateValidator.lookup_config_index seen n).isSome = true) →
    (TemplateValidator.lookup_config_index
      (TemplateValidator.seen_after xs seen) n).isSome = true := by
  induction xs with
  | nil =>
    intro seen n h
    rcases h with h | h
    · cases h
    · exact h
  | cons q rest ih =>
    intro seen n h
    obtain ⟨qn, qi⟩ := q
    rw [TemplateValidator.seen_after]
    cases hl : TemplateValidator.lookup_config_index seen qn with
    | some e =>
      refine ih seen n ?_
      rcases h with h | h
      · rw [List.map_cons] at h
        rcases List.mem_cons.mp h with rfl | h2
        · right
          rw [hl]
          rfl
        · left
          exact h2
      · right
        exact h
    | none =>
      refine ih ((qn, qi) :: seen) n ?_
      rcases h with h | h
      · rw [List.map_cons] at h
        rcases List.mem_cons.mp h with rfl | h2
        · right
          rw [lookup_config_index_cons]
          simp
        · left
          exact h2
      · right
        rw [lookup_config_index_cons]
        by_cases hq : ((qn, qi).1 == n) = true
        · rw [if_pos hq]
          rfl
        · rw [if_neg hq]
          exact h

/-- If a name is already recorded with index `e`, every later occurrence
`(n, ci)` in the remaining occurrence list produces the corresponding
duplicate warning. -/
theorem cross_loop_emits_duplicate (occs : List (String × Nat)) :
    ∀ (seen : List (String × Nat)) (n : String) (e ci : Nat),
    TemplateValidator.lookup_config_index seen n = some e → (n, ci) ∈ occs →
    TemplateValidator.duplicate_template_issue n e ci
      ∈ TemplateValidator.cross_config_loop occs seen := by
  induction occs with
  | nil =>
    intro _ _ _ _ _ hmem
    cases hmem
  | cons q rest ih =>
    intro seen n e ci hl hmem
    obtain ⟨qn, qi⟩ := q
    rw [TemplateValidator.cross_config_loop]
    cases hq : TemplateValidator.lookup_config_index seen qn with
    | some e2 =>
      rcases List.mem_cons.mp hmem with heq | hmem2
      · obtain ⟨h1, h2⟩ := Prod.mk.injEq .. ▸ heq
        subst h1
        subst h2
        rw [hl] at hq
        obtain rfl := (Option.some.injEq ..).mp hq
        exact List.mem_cons_self _ _
      · exact List.mem_cons_of_mem _ (ih seen n e ci hl hmem2)
    | none =>
      rcases List.mem_cons.mp hmem with heq | hmem2
      · obtain ⟨h1, h2⟩ := Prod.mk.injEq .. ▸ heq
        subst h1
        rw [hl] at hq
        cases hq
      · refine ih ((qn, qi) :: seen) n e ci ?_ hmem2
        rw [lookup_config_index_cons, if_neg ?_]
        · exact hl
        · intro hqn
          have : qn = n := by simpa using hqn
          subst this
          rw [hl] at hq
          cases hq


/-- `cross_config_loop` on an appended occurrence list splits, the second
half running with the map accumulated by the first. -/
theorem cross_loop_append (xs ys : List (String × Nat)) :
    ∀ seen, TemplateValidator.cross_config_loop (xs ++ ys) seen
      = TemplateValidator.cross_config_loop xs seen ++
        TemplateValidator.cross_config_loop ys (TemplateValidator.seen_after xs seen) := by
  induction xs with
  | nil =>
    intro seen
    rw [List.nil_append, TemplateValidator.cross_config_loop.eq_1,
      TemplateValidator.seen_after, List.nil_append]
  | cons q rest ih =>
    intro seen
    obtain ⟨qn, qi⟩ := q
    rw [List.cons_append, TemplateValidator.cross_config_loop,
      TemplateValidator.cross_config_loop, TemplateValidator.seen_after]
    cases hq : TemplateValidator.lookup_config_index seen qn with
    | some e =>
      rw [ih seen, List.cons_append]
    | none =>
      exact ih ((qn, qi) :: seen)

/-- With globally distinct names nothing is ever found in the seen map,
so no duplicate warning is produced. -/
theorem cross_loop_nil_of_nodup (occs : List (String × Nat)) :
    ∀ seen, (occs.map Prod.fst).Nodup →
    (∀ p ∈ occs, TemplateValidator.lookup_config_index seen p.1 = none) →
    TemplateValidator.cross_config_loop occs seen = [] := by
  induction occs with
  | nil => intro _ _ _; rfl
  | cons q rest ih =>
    intro seen hnd hnone
    obtain ⟨qn, qi⟩ := q
    rw [TemplateValidator.cross_config_loop, hnone (qn, qi) (List.mem_cons_self _ _)]
    rw [List.map_cons] at hnd
    have hcons := List.nodup_cons.mp hnd
    have hnotin : qn ∉ rest.map Prod.fst := hcons.1
    refine ih ((qn, qi) :: seen) hcons.2 ?_
    intro p hp
    rw [lookup_config_index_cons, if_neg ?_]
    · exact hnone p (List.mem_cons_of_mem _ hp)
    · intro hqn
      have : qn = p.1 := by simpa using hqn
      exact hnotin (this ▸ List.mem_map_of_mem Prod.fst hp)

/-- C7.  Two manifests both defining a template of the same name produce
a Warning-severity duplicate issue naming both config indices; a manifest
list whose template names are globally unique produces no duplicate
warnings at all. -/
theorem validate_cross_configurations_duplicates
    (configs : List TemplateConfig) (c1 c2 : TemplateConfig) (n : String) :
    (((TemplateValidator.cross_occurrences configs).map Prod.fst).Nodup →
      TemplateValidator.validate_cross_configurations configs = [])
    ∧ (n ∈ c1.templates.map TemplateDefinition.name →
        n ∈ c2.templates.map TemplateDefinition.name →
        TemplateValidator.duplicate_template_issue n 0 1
          ∈ TemplateValidator.validate_cross_configurations [c1, c2])
    ∧ (TemplateValidator.duplicate_template_issue n 0 1).severity
        = ValidationSeverity.Warning := by
  refine ⟨?_, ?_, rfl⟩
  · intro hnd
    exact cross_loop_nil_of_nodup _ [] hnd (fun p _ => rfl)
  · intro h1 h2
    have hocc : TemplateValidator.cross_occurrences [c1, c2]
        = c1.templates.map (fun t => (t.name, 0)) ++
          c2.templates.map (fun t => (t.name, 1)) := by
      simp [TemplateValidator.cross_occurrences, List.enum_cons]
    rw [TemplateValidator.validate_cross_configurations, hocc, cross_loop_append]
    refine List.mem_append_right _ ?_
    have hin2 : (n, 1) ∈ c2.templates.map (fun t => (t.name, 1)) := by
      obtain ⟨t, ht, rfl⟩ := List.mem_map.mp h2
      exact List.mem_map_of_mem _ ht
    refine cross_loop_emits_duplicate _ _ n 0 1 ?_ hin2
    have hsome := lookup_seen_after_isSome (c1.templates.map fun t => (t.name, 0)) [] n
      (Or.inl (by simpa using h1))
    obtain ⟨v, hv⟩ := Option.isSome_iff_exists.mp hsome
    have hv0 : v = 0 := by
      have hmem := lookup_config_index_mem _ _ _ hv
      exact seen_after_values _ []
        (by
          intro p hp
          obtain ⟨t, _, rfl⟩ := List.mem_map.mp hp
          rfl)
        (by intro p hp; cases hp) _ hmem
    rw [hv0] at hv
    exact hv

/-- A concrete instantiation of `validate_cross_configurations_duplicates`:
two packages both defining `lecture-note`. -/
theorem validate_cross_configurations_duplicates_witness :
    TemplateValidator.duplicate_template_issue "lecture-note" 0 1
      ∈ TemplateValidator.validate_cross_configurations
          [{ metadata := { name := "pkg-a", version := "1.0.0", description := none,
                           repository := none, author := none, license := none },
             templates := [{ name := "lecture-note", display_name := "Lecture",
                             description := "d", file := "a.typ", function := "f",
                             supports_variants := false, course_types := none,
                             default_sections := [] }],
             variants := none, course_mapping := none, engine := none },
           { metadata := { name := "pkg-b", version := "1.0.0", description := none,
                           repository := none, author := none, license := none },
             templates := [{ name := "lecture-note", display_name := "Lecture B",
                             description := "d", file := "b.typ", function := "g",
                             supports_variants := false, course_types := none,
                             default_sections := [] }],
             variants := none, course_mapping := none, engine := none }] :=
  (validate_cross_configurations_duplicates
    []
    { metadata := { name := "pkg-a", version := "1.0.0", description := none,
                    repository := none, author := none, license := none },
      templates := [{ name := "lecture-note", display_name := "Lecture",
                      description := "d", file := "a.typ", function := "f",
                      supports_variants := false, course_types := none,
                      default_sections := [] }],
      variants := none, course_mapping := none, engine := none }
    { metadata := { name := "pkg-b", version := "1.0.0", description := none,
                    repository := none, author := none, license := none },
      templates := [{ name := "lecture-note", display_name := "Lecture B",
                      description := "d", file := "b.typ", function := "g",
                      supports_variants := false, course_types := none,
                      default_sections := [] }],
      variants := none, course_mapping := none, engine := none }
    "lecture-note").2.1 (by decide) (by decide)

/-! ## Character-level lemmas for the sanitizer -/

/-- `Char` order is code-point order. -/
theorem char_le_iff {a b : Char} : a ≤ b ↔ a.toNat ≤ b.toNat := Iff.rfl

/-- `Char` equality is code-point equality. -/
theorem char_eq_iff {a b : Char} : a = b ↔ a.toNat = b.toNat :=
  ⟨congrArg Char.toNat, fun h => Char.ext (UInt32.ext h)⟩

/-- `Char.ofNat` below the surrogate range round-trips through `toNat`. -/
theorem char_toNat_ofNat {n : Nat} (h : n < 55296) : (Char.ofNat n).toNat = n := by
  rw [Char.ofNat, dif_pos (Or.inl h)]
  rfl

/-- `Char.toLower` fixes every character outside `A`-`Z`. -/
theorem char_toLower_of_not_upper {c : Char} (h : ¬(65 ≤ c.toNat ∧ c.toNat ≤ 90)) :
    Char.toLower c = c := by
  show (if c.toNat ≥ 65 ∧ c.toNat ≤ 90 then Char.ofNat (c.toNat + 32) else c) = c
  exact if_neg (fun hc => h ⟨hc.1, hc.2⟩)

/-- `Char.toLower` shifts `A`-`Z` down into `a`-`z`. -/
theorem char_toNat_toLower_of_upper {c : Char} (h : 65 ≤ c.toNat ∧ c.toNat ≤ 90) :
    (Char.toLower c).toNat = c.toNat + 32 := by
  have he : Char.toLower c = Char.ofNat (c.toNat + 32) := by
    show (if c.toNat ≥ 65 ∧ c.toNat ≤ 90 then Char.ofNat (c.toNat + 32) else c) = _
    exact if_pos ⟨h.1, h.2⟩
  rw [he, char_toNat_ofNat (by omega)]

/-- `Char.toLower` maps non-dashes to non-dashes. -/
theorem char_toLower_ne_dash {c : Char} (h : c ≠ '-') : Char.toLower c ≠ '-' := by
  by_cases hu : 65 ≤ c.toNat ∧ c.toNat ≤ 90
  · intro he
    have h1 := char_toNat_toLower_of_upper hu
    rw [he] at h1
    have h2 : ('-').toNat = 45 := rfl
    omega
  · rw [char_toLower_of_not_upper hu]
    exact h

/-- `Char.toLower` fixes already-sanitized characters. -/
theorem char_toLower_fixed_of_sanitized {c : Char} (h : sanitized_alphabet c) :
    Char.toLower c = c := by
  apply char_toLower_of_not_upper
  rcases h with ⟨h1, h2⟩ | ⟨h1, h2⟩ | rfl | rfl
  · omega
  · omega
  · decide
  · decide

/-- Lower-casing takes the map's output alphabet into the sanitized one. -/
theorem char_toLower_sanitized {c : Char} (h : sanitizer_alphabet c) :
    sanitized_alphabet (Char.toLower c) := by
  rcases h with h1 | h1 | h1 | rfl | rfl
  · rw [char_toLower_of_not_upper (by omega)]
    exact Or.inl h1
  · have := char_toNat_toLower_of_upper h1
    exact Or.inl (by omega)
  · rw [char_toLower_of_not_upper (by omega)]
    exact Or.inr (Or.inl h1)
  · decide
  · decide

/-- The Validator character map only outputs alphabet characters. -/
theorem map_filename_char_alphabet (c : Char) :
    sanitizer_alphabet (Validator.map_filename_char c) := by
  rw [Validator.map_filename_char]
  split_ifs with h1 h2 h3 h4 h5 h6 h7
  · rcases h1 with ⟨ha, hb⟩ | ⟨ha, hb⟩ | ⟨ha, hb⟩ | rfl | rfl
    · exact Or.inl ⟨char_le_iff.mp ha, char_le_iff.mp hb⟩
    · exact Or.inr (Or.inl ⟨char_le_iff.mp ha, char_le_iff.mp hb⟩)
    · exact Or.inr (Or.inr (Or.inl ⟨char_le_iff.mp ha, char_le_iff.mp hb⟩))
    · exact Or.inr (Or.inr (Or.inr (Or.inl rfl)))
    · exact Or.inr (Or.inr (Or.inr (Or.inr rfl)))
  all_goals decide

/-- The Validator character map fixes sanitized characters. -/
theorem map_filename_char_fixed {c : Char} (h : sanitized_alphabet c) :
    Validator.map_filename_char c = c := by
  have h2 : ('a' ≤ c ∧ c ≤ 'z') ∨ ('A' ≤ c ∧ c ≤ 'Z') ∨ ('0' ≤ c ∧ c ≤ '9') ∨
      c = '-' ∨ c = '_' := by
    rcases h with h1 | h1 | rfl | rfl
    · exact Or.inl ⟨char_le_iff.mpr h1.1, char_le_iff.mpr h1.2⟩
    · exact Or.inr (Or.inr (Or.inl ⟨char_le_iff.mpr h1.1, char_le_iff.mpr h1.2⟩))
    · exact Or.inr (Or.inr (Or.inr (Or.inl rfl)))
    · exact Or.inr (Or.inr (Or.inr (Or.inr rfl)))
  rw [Validator.map_filename_char, if_pos h2]

/-! ## List-level lemmas for the sanitizer pipeline -/

theorem intercalate_nil_eq {α : Type} (sep : List α) :
    List.intercalate sep ([] : List (List α)) = [] := by
  simp [List.intercalate]

theorem intercalate_single_eq {α : Type} (sep : List α) (w : List α) :
    List.intercalate sep [w] = w := by
  simp [List.intercalate]

theorem intercalate_cons_cons_eq {α : Type} (sep : List α) (a b : List α)
    (t : List (List α)) :
    List.intercalate sep (a :: b :: t) = a ++ sep ++ List.intercalate sep (b :: t) := by
  simp [List.intercalate, List.intersperse_cons₂, List.append_assoc]

/-- Every character of a `splitOnP` segment comes from the original list
and fails the splitting predicate. -/
theorem mem_of_mem_splitOnP {α : Type} {p : α → Bool} :
    ∀ (l : List α) (w : List α), w ∈ l.splitOnP p → ∀ c ∈ w, c ∈ l ∧ p c = false := by
  intro l
  induction l with
  | nil =>
    intro w hw c hc
    rw [List.splitOnP_nil] at hw
    rcases List.mem_singleton.mp hw with rfl
    cases hc
  | cons a t ih =>
    intro w hw c hc
    rw [List.splitOnP_cons] at hw
    by_cases hpa : p a = true
    · rw [if_pos hpa] at hw
      rcases List.mem_cons.mp hw with rfl | hw2
      · cases hc
      · have h2 := ih w hw2 c hc
        exact ⟨List.mem_cons_of_mem _ h2.1, h2.2⟩
    · rw [if_neg hpa] at hw
      obtain ⟨h1, t1, hsp⟩ : ∃ h1 t1, t.splitOnP p = h1 :: t1 := by
        cases hs : t.splitOnP p with
        | nil => exact absurd hs (List.splitOnP_ne_nil p t)
        | cons h1 t1 => exact ⟨h1, t1, rfl⟩
      rw [hsp, List.modifyHead_cons] at hw
      rcases List.mem_cons.mp hw with rfl | hw2
      · rcases List.mem_cons.mp hc with rfl | hc2
        · exact ⟨List.mem_cons_self _ _, by simpa using hpa⟩
        · have h2 := ih h1 (by rw [hsp]; exact List.mem_cons_self _ _) c hc2
          exact ⟨List.mem_cons_of_mem _ h2.1, h2.2⟩
      · have h2 := ih w (by rw [hsp]; exact List.mem_cons_of_mem _ hw2) c hc
        exact ⟨List.mem_cons_of_mem _ h2.1, h2.2⟩

/-- A dash-free list trivially has no two adjacent dashes. -/
theorem chain_of_forall_ne_dash :
    ∀ (l : List Char), (∀ c ∈ l, c ≠ '-') →
    List.Chain' (fun a b => ¬(a = '-' ∧ b = '-')) l := by
  intro l
  induction l with
  | nil => exact fun _ => List.chain'_nil
  | cons a t ih =>
    intro h
    refine List.chain'_cons'.mpr ⟨?_, ih (fun c hc => h c (List.mem_cons_of_mem _ hc))⟩
    intro y _ hcontra
    exact h a (List.mem_cons_self _ _) hcontra.1

theorem mem_of_head_eq_some {α : Type} {l : List α} {a : α} (h : l.head? = some a) :
    a ∈ l := by
  cases l with
  | nil => cases h
  | cons b t =>
    rw [List.head?_cons] at h
    obtain rfl := (Option.some.injEq ..).mp h
    exact List.mem_cons_self _ _

theorem mem_of_getLast_eq_some {α : Type} {l : List α} {a : α} (h : l.getLast? = some a) :
    a ∈ l := by
  rw [List.getLast?_eq_head?_reverse] at h
  exact List.mem_reverse.mp (mem_of_head_eq_some h)

/-- The canonical facts about `intercalate ['-']` applied to non-empty,
dash-free segments: no leading, trailing or doubled dash, non-emptiness,
and provenance of every character. -/
theorem intercalate_sanitized_facts :
    ∀ (S : List (List Char)), (∀ w ∈ S, w ≠ [] ∧ ∀ c ∈ w, c ≠ '-') →
      (List.intercalate ['-'] S).head? ≠ some '-'
      ∧ (List.intercalate ['-'] S).getLast? ≠ some '-'
      ∧ List.Chain' (fun a b => ¬(a = '-' ∧ b = '-')) (List.intercalate ['-'] S)
      ∧ (S ≠ [] → List.intercalate ['-'] S ≠ [])
      ∧ (∀ c ∈ List.intercalate ['-'] S, c = '-' ∨ ∃ w ∈ S, c ∈ w) := by
  intro S
  induction S with
  | nil =>
    intro _
    rw [intercalate_nil_eq]
    refine ⟨by simp, by simp, List.chain'_nil, fun h => absurd rfl h, by simp⟩
  | cons w S ih =>
    cases S with
    | nil =>
      intro hgood
      have hw := hgood w (List.mem_cons_self _ _)
      rw [intercalate_single_eq]
      refine ⟨?_, ?_, chain_of_forall_ne_dash w hw.2, fun _ => hw.1, ?_⟩
      · intro hc
        exact hw.2 _ (mem_of_head_eq_some hc) rfl
      · intro hc
        exact hw.2 _ (mem_of_getLast_eq_some hc) rfl
      · intro c hc
        exact Or.inr ⟨w, List.mem_cons_self _ _, hc⟩
    | cons b t =>
      intro hgood
      have hw := hgood w (List.mem_cons_self _ _)
      have hrest : ∀ u ∈ b :: t, u ≠ [] ∧ ∀ c ∈ u, c ≠ '-' :=
        fun u hu => hgood u (List.mem_cons_of_mem _ hu)
      obtain ⟨ih1, ih2, ih3, ih4, ih5⟩ := ih hrest
      have hr_ne : List.intercalate ['-'] (b :: t) ≠ [] := ih4 (List.cons_ne_nil _ _)
      rw [intercalate_cons_cons_eq]
      have hshape : w ++ ['-'] ++ List.intercalate ['-'] (b :: t)
          = w ++ ('-' :: List.intercalate ['-'] (b :: t)) := by
        simp
      rw [hshape]
      refine ⟨?_, ?_, ?_, ?_, ?_⟩
      · obtain ⟨c, w2, rfl⟩ : ∃ c w2, w = c :: w2 := by
          cases w with
          | nil => exact absurd rfl hw.1
          | cons c w2 => exact ⟨c, w2, rfl⟩
        rw [List.cons_append, List.head?_cons]
        intro hc
        obtain rfl := (Option.some.injEq ..).mp hc
        exact hw.2 '-' (List.mem_cons_self _ _) rfl
      · obtain ⟨d, hd⟩ : ∃ d, (List.intercalate ['-'] (b :: t)).getLast? = some d := by
          cases hL : (List.intercalate ['-'] (b :: t)).getLast? with
          | none => exact absurd (List.getLast?_eq_none_iff.mp hL) hr_ne
          | some d => exact ⟨d, rfl⟩
        have hd_ne : d ≠ '-' := fun he => ih2 (he ▸ hd)
        have h2 : ('-' :: List.intercalate ['-'] (b :: t) : List Char).getLast?
            = some d := by
          show ((['-'] ++ List.intercalate ['-'] (b :: t)).getLast? = _)
          rw [List.getLast?_append, hd]
          rfl
        rw [List.getLast?_append, h2]
        intro hcontra
        have h3 : (some d).or (w.getLast?) = some d := rfl
        rw [h3] at hcontra
        exact hd_ne ((Option.some.injEq ..).mp hcontra)
      · refine List.chain'_append.mpr ⟨chain_of_forall_ne_dash w hw.2, ?_, ?_⟩
        · refine List.chain'_cons'.mpr ⟨?_, ih3⟩
          intro y hy hcontra
          have hsome : (List.intercalate ['-'] (b :: t)).head? = some y :=
            Option.mem_def.mp hy
          exact ih1 (hcontra.2 ▸ hsome)
        · intro x hx y hy hcontra
          have hxw : x ∈ w := mem_of_getLast_eq_some (Option.mem_def.mp hx)
          exact hw.2 x hxw hcontra.1
      · intro _
        simp
      · intro c hc
        rcases List.mem_append.mp hc with hcw | hcr
        · exact Or.inr ⟨w, List.mem_cons_self _ _, hcw⟩
        · rcases List.mem_cons.mp hcr with rfl | hcr2
          · exact Or.inl rfl
          · rcases ih5 c hcr2 with hdash | ⟨u, hu, hcu⟩
            · exact Or.inl hdash
            · exact Or.inr ⟨u, List.mem_cons_of_mem _ hu, hcu⟩

/-- Splitting an intercalation of non-empty dash-free words and dropping
empty segments recovers the words. -/
theorem splitOn_filter_intercalate (S : List (List Char))
    (h : ∀ w ∈ S, w ≠ [] ∧ ∀ c ∈ w, c ≠ '-') :
    ((List.intercalate ['-'] S).splitOn '-').filter (fun w => !w.isEmpty) = S := by
  cases S with
  | nil =>
    rw [intercalate_nil_eq, List.splitOn_nil]
    rfl
  | cons w t =>
    rw [List.splitOn_intercalate (w :: t) '-' (fun l hl hc => (h l hl).2 '-' hc rfl)
      (List.cons_ne_nil w t)]
    refine List.filter_eq_self.mpr ?_
    intro u hu
    simpa [List.isEmpty_iff] using (h u hu).1

theorem map_intersperse_eq {α β : Type} (f : α → β) (sep : α) :
    ∀ l : List α, (List.intersperse sep l).map f = List.intersperse (f sep) (l.map f) := by
  intro l
  induction l with
  | nil => rfl
  | cons a t ih =>
    cases t with
    | nil => rfl
    | cons b u =>
      simp [List.intersperse_cons₂, ih]

theorem map_intercalate_eq {α β : Type} (f : α → β) (sep : List α) (S : List (List α)) :
    (List.intercalate sep S).map f
      = List.intercalate (sep.map f) (S.map (List.map f)) := by
  rw [List.intercalate, List.intercalate, List.map_flatten, map_intersperse_eq]

/-- `trim_end_matches('-')` is the identity when there is no trailing dash. -/
theorem trim_end_dashes_of_getLast {l : List Char} (h : l.getLast? ≠ some '-') :
    trim_end_dashes l = l := by
  rw [trim_end_dashes]
  cases hr : l.reverse with
  | nil =>
    rw [List.dropWhile_nil, List.reverse_nil]
    exact (List.reverse_eq_nil_iff.mp hr).symm
  | cons a t =>
    have ha : l.getLast? = some a := by
      rw [← List.head?_reverse, hr, List.head?_cons]
    have hne : (a == '-') = false := by
      refine beq_eq_false_iff_ne.mpr ?_
      intro he
      exact h (he ▸ ha)
    rw [List.dropWhile_cons, hne, if_neg (by decide : ¬(false = true))]
    rw [← hr, List.reverse_reverse]

/-- No list satisfying the no-adjacent-dashes chain contains `"--"`. -/
theorem not_infix_of_chain {l : List Char}
    (h : List.Chain' (fun a b => ¬(a = '-' ∧ b = '-')) l) : ¬ ['-', '-'] <:+: l := by
  rintro ⟨s, t, rfl⟩
  have h2 := (List.chain'_append.mp h).1
  have h3 := (List.chain'_append.mp h2).2.1
  exact (List.chain'_cons.mp h3).1 ⟨rfl, rfl⟩

theorem map_id_of_forall {α : Type} (f : α → α) :
    ∀ l : List α, (∀ c ∈ l, f c = c) → l.map f = l := by
  intro l
  induction l with
  | nil => exact fun _ => rfl
  | cons a t ih =>
    intro h
    rw [List.map_cons, h a (List.mem_cons_self _ _),
      ih (fun c hc => h c (List.mem_cons_of_mem _ hc))]

theorem string_mk_data (s : String) : String.mk s.data = s := by
  cases s
  rfl

/-- Structure theorem for `Validator.sanitize_filename`: its output is an
intercalation of non-empty words over the sanitized alphabet, free of
dashes inside words. -/
theorem sanitize_filename_structure (input : String) :
    ∃ S : List (List Char),
      (∀ w ∈ S, w ≠ [] ∧ ∀ c ∈ w, sanitized_alphabet c ∧ c ≠ '-')
      ∧ (Validator.sanitize_filename input).data = List.intercalate ['-'] S := by
  set x := input.data.map Validator.map_filename_char with hx
  have hx_alpha : ∀ c ∈ x, sanitizer_alphabet c := by
    intro c hc
    obtain ⟨a, _, rfl⟩ := List.mem_map.mp hc
    exact map_filename_char_alphabet a
  set W := (x.splitOn '-').filter (fun w => !w.isEmpty) with hW
  have hW_good : ∀ w ∈ W, w ≠ [] ∧ ∀ c ∈ w, sanitizer_alphabet c ∧ c ≠ '-' := by
    intro w hw
    rw [hW, List.mem_filter] at hw
    constructor
    · simpa [List.isEmpty_iff] using hw.2
    · intro c hc
      have h2 := mem_of_mem_splitOnP x w (by
        have := hw.1
        rwa [List.splitOn] at this) c hc
      exact ⟨hx_alpha c h2.1, by simpa using h2.2⟩
  refine ⟨W.map (List.map Char.toLower), ?_, ?_⟩
  · intro w' hw'
    obtain ⟨w, hw, rfl⟩ := List.mem_map.mp hw'
    have hg := hW_good w hw
    constructor
    · simpa using hg.1
    · intro c hc
      obtain ⟨a, ha, rfl⟩ := List.mem_map.mp hc
      have hga := hg.2 a ha
      exact ⟨char_toLower_sanitized hga.1, char_toLower_ne_dash hga.2⟩
  · show (Validator.sanitize_filename input).data = _
    have hpipe : (Validator.sanitize_filename input).data
        = trim_end_dashes ((List.intercalate ['-'] W).map Char.toLower) := rfl
    have hmap : (List.intercalate ['-'] W).map Char.toLower
        = List.intercalate ['-'] (W.map (List.map Char.toLower)) := by
      rw [map_intercalate_eq]
      rfl
    have hgood2 : ∀ w ∈ W.map (List.map Char.toLower), w ≠ [] ∧ ∀ c ∈ w, c ≠ '-' := by
      intro w' hw'
      obtain ⟨w, hw, rfl⟩ := List.mem_map.mp hw'
      have hg := hW_good w hw
      refine ⟨by simpa using hg.1, ?_⟩
      intro c hc
      obtain ⟨a, ha, rfl⟩ := List.mem_map.mp hc
      exact char_toLower_ne_dash (hg.2 a ha).2
    have hfacts := intercalate_sanitized_facts (W.map (List.map Char.toLower)) hgood2
    rw [hpipe, hmap, trim_end_dashes_of_getLast hfacts.2.1]

/-! ## C5: sanitizer idempotence and canonical shape -/

set_option maxHeartbeats 1600000 in
/-- C5.  `Validator::sanitize_filename` is idempotent, its output never
contains two consecutive dashes and never starts or ends with a dash, and
it maps `"Problem Set #1: Arrays & Pointers"` to
`"problem-set-1-arrays-pointers"`. -/
theorem sanitize_filename_idempotent_canonical (s : String) :
    Validator.sanitize_filename (Validator.sanitize_filename s)
        = Validator.sanitize_filename s
    ∧ ¬ ['-', '-'] <:+: (Validator.sanitize_filename s).data
    ∧ (Validator.sanitize_filename s).data.head? ≠ some '-'
    ∧ (Validator.sanitize_filename s).data.getLast? ≠ some '-'
    ∧ Validator.sanitize_filename "Problem Set #1: Arrays & Pointers"
        = "problem-set-1-arrays-pointers" := by
  obtain ⟨S, hS, hout⟩ := sanitize_filename_structure s
  have hgood : ∀ w ∈ S, w ≠ [] ∧ ∀ c ∈ w, c ≠ '-' :=
    fun w hw => ⟨(hS w hw).1, fun c hc => ((hS w hw).2 c hc).2⟩
  have hfacts := intercalate_sanitized_facts S hgood
  have hchars : ∀ c ∈ (Validator.sanitize_filename s).data, sanitized_alphabet c := by
    intro c hc
    rw [hout] at hc
    rcases hfacts.2.2.2.2 c hc with rfl | ⟨w, hw, hcw⟩
    · exact Or.inr (Or.inr (Or.inl rfl))
    · exact ((hS w hw).2 c hcw).1
  refine ⟨?_, ?_, ?_, ?_, ?_⟩
  · set out := Validator.sanitize_filename s with hdef
    have hmap1 : out.data.map Validator.map_filename_char = out.data :=
      map_id_of_forall _ _ (fun c hc => map_filename_char_fixed (hchars c hc))
    have hwords : ((out.data.map Validator.map_filename_char).splitOn '-').filter
        (fun w => !w.isEmpty) = S := by
      rw [hmap1, hout]
      exact splitOn_filter_intercalate S hgood
    have hlow : List.map Char.toLower (List.intercalate ['-'] S)
        = List.intercalate ['-'] S := by
      refine map_id_of_forall _ _ ?_
      intro c hc
      refine char_toLower_fixed_of_sanitized (hchars c ?_)
      rw [hout]
      exact hc
    show String.mk (trim_end_dashes (List.map Char.toLower
      (List.intercalate ['-']
        (((out.data.map Validator.map_filename_char).splitOn '-').filter
          (fun w => !w.isEmpty))))) = out
    rw [hwords, hlow, trim_end_dashes_of_getLast hfacts.2.1, ← hout, string_mk_data]
  · rw [hout]
    exact not_infix_of_chain hfacts.2.2.1
  · rw [hout]
    exact hfacts.1
  · rw [hout]
    exact hfacts.2.1
  · decide

/-- A concrete instantiation of `sanitize_filename_idempotent_canonical`:
idempotence at the specification's example input. -/
theorem sanitize_filename_idempotent_canonical_witness :
    Validator.sanitize_filename
        (Validator.sanitize_filename "Problem Set #1: Arrays & Pointers")
      = Validator.sanitize_filename "Problem Set #1: Arrays & Pointers" :=
  (sanitize_filename_idempotent_canonical "Problem Set #1: Arrays & Pointers").1

/-! ## C9: the two sanitizer implementations agree -/

set_option maxHeartbeats 1600000 in
/-- C9.  `Validator::sanitize_filename` (core/validation.rs) and the free
function `sanitize_filename` (utils.rs) are extensionally equal. -/
theorem sanitize_filename_implementations_agree (s : String) :
    Validator.sanitize_filename s = utils.sanitize_filename s := by
  have hmap : Validator.map_filename_char = utils.map_filename_char := by
    funext c
    rw [Validator.map_filename_char, utils.map_filename_char]
    split_ifs <;> rfl
  rw [Validator.sanitize_filename, utils.sanitize_filename, hmap]

/-- A concrete instantiation of `sanitize_filename_implementations_agree`. -/
theorem sanitize_filename_implementations_agree_witness :
    Validator.sanitize_filename "Problem Set #1: Arrays & Pointers"
      = utils.sanitize_filename "Problem Set #1: Arrays & Pointers" :=
  sanitize_filename_implementations_agree "Problem Set #1: Arrays & Pointers"

end DtuNotes
